import Mathlib

/-!
Verification of the lung-cancer-classification inference pipeline.

The development shallowly embeds the inference request pipeline of the
repository: the image preprocessor, the result formatter, the memoized
model-load operation and the request handlers of `src/app.py` (Flask REST
API) and `src/app_streamlit.py` (Streamlit dashboard).

Modelling conventions:
* PIL images are records carrying a color mode, dimensions, a per-channel
  uint8 pixel function and the decoder-declared format
  (`None` after `Image.convert`, matching PIL).
* NumPy arrays are a shape (`List Nat`) together with a total indexing
  function into ℚ; float32 arithmetic is modelled by exact rational
  arithmetic (the claims under study concern shapes, ranges and exact
  decimal values, all reproducible in ℚ).
* `Image.resize` is modelled parametrically in the interpolated pixel
  content: PIL guarantees only that the result is an image of the same
  mode, of the requested dimensions, with uint8 channels; theorems hold
  for every interpolation function.
* Fallible Python code (exceptions) is modelled with `Except String`;
  side effects that the claims observe (file checks, deserialization
  attempts, decode and inference attempts) are logged in event lists.
-/

namespace LungCancer

/-- Decoded PIL color modes relevant to the pipeline. -/
inductive Mode where
  | RGB
  | RGBA
  | L
  | P
  deriving DecidableEq

/-- Number of color channels `np.array` sees for a given mode
(grayscale and palette images yield a 2-D array, i.e. no channel axis). -/
def Mode.channels : Mode → Nat
  | .RGB => 3
  | .RGBA => 4
  | .L => 1
  | .P => 1

/-- Whether `np.array` of an image of this mode has a trailing channel axis. -/
def Mode.hasChannelAxis : Mode → Bool
  | .RGB => true
  | .RGBA => true
  | .L => false
  | .P => false

/-- A decoded PIL image: mode, dimensions, uint8 pixel data
(`pixel y x c` is the value of channel `c` at row `y`, column `x`),
and the decoder-declared format (`none` when absent). -/
structure PILImage where
  mode : Mode
  width : Nat
  height : Nat
  pixel : Nat → Nat → Nat → Fin 256
  format : Option String

/-- PIL `Image.convert RGB` applied to an RGBA image: the alpha channel is
dropped (channels 0..2 are kept unchanged, no blending), and the new image
carries no declared format (PIL sets `format` to `None` on converted images). -/
def PILImage.convertRGB (img : PILImage) : PILImage :=
  { mode := .RGB
    width := img.width
    height := img.height
    pixel := img.pixel
    format := none }

/-- PIL `Image.resize (w, h)`: a fresh image of the same mode with the
requested dimensions; the interpolated pixel content is supplied by
`interp` (PIL guarantees only mode and uint8 range, which the type encodes). -/
def PILImage.resize (img : PILImage) (w h : Nat)
    (interp : Nat → Nat → Nat → Fin 256) : PILImage :=
  { mode := img.mode
    width := w
    height := h
    pixel := interp
    format := img.format }

/-- A NumPy array: a shape together with a total indexing function
(indices outside the shape read as 0). -/
structure NPArray where
  shape : List Nat
  data : List Nat → ℚ

/-- The array `np.array(img, dtype=np.float32)` produces from a PIL image:
shape `[H, W, C]` for multi-channel modes, `[H, W]` for grayscale/palette. -/
def npArrayOfImage (img : PILImage) : NPArray :=
  if img.mode.hasChannelAxis then
    { shape := [img.height, img.width, img.mode.channels]
      data := fun idx =>
        match idx with
        | [y, x, c] => ((img.pixel y x c : Nat) : ℚ)
        | _ => 0 }
  else
    { shape := [img.height, img.width]
      data := fun idx =>
        match idx with
        | [y, x] => ((img.pixel y x 0 : Nat) : ℚ)
        | _ => 0 }

/-- The array `np.expand_dims(a, axis=0)`: a leading batch axis of size 1. -/
def expandDims (a : NPArray) : NPArray :=
  { shape := 1 :: a.shape
    data := fun idx =>
      match idx with
      | _ :: rest => a.data rest
      | [] => 0 }

/-- The array `a / 255.0`: every element divided by 255. -/
def scaleDiv255 (a : NPArray) : NPArray :=
  { shape := a.shape
    data := fun idx => a.data idx / 255 }

/-- The target spatial size `IMG_SIZE = (150, 150)` of both front-ends. -/
def IMG_SIZE : Nat × Nat := (150, 150)

/-- The REST preprocessing of `src/app.py` lines 160-180: convert RGBA to
RGB, resize to 150 by 150, convert to a float array, add the batch axis,
divide by 255. Returns the tensor together with the original width, height
and the format string later echoed in the response
(`img.format if img.format else Unknown`, read from the un-resized image). -/
def restPreprocess (img0 : PILImage)
    (interp : Nat → Nat → Nat → Fin 256) : NPArray × Nat × Nat × String :=
  let img := if img0.mode = .RGBA then img0.convertRGB else img0
  let ow := img.width
  let oh := img.height
  let resized := img.resize IMG_SIZE.1 IMG_SIZE.2 interp
  let arr := scaleDiv255 (expandDims (npArrayOfImage resized))
  (arr, ow, oh, img.format.getD "Unknown")

/-- The tensor the REST pipeline hands to `model.predict`. -/
def restPreprocessArr (img : PILImage)
    (interp : Nat → Nat → Nat → Fin 256) : NPArray :=
  (restPreprocess img interp).1

/-- The dashboard preprocessing of `src/app_streamlit.py` lines 186-196:
resize, convert to a float array, add the batch axis, divide by 255 — with
no RGBA-to-RGB conversion anywhere in that pipeline. -/
def dashboardPreprocessArr (img : PILImage)
    (interp : Nat → Nat → Nat → Fin 256) : NPArray :=
  scaleDiv255 (expandDims (npArrayOfImage (img.resize IMG_SIZE.1 IMG_SIZE.2 interp)))

/-- The fixed, ordered class taxonomy `CLASS_NAMES` of both front-ends. -/
def CLASS_NAMES : List String := ["Adenocarcinoma", "Normal", "Squamous Cell Carcinoma"]

/-- Scan underlying `np.argmax`: keeps the earliest index attaining the
running maximum (strict improvement moves the index). -/
def argmaxAux : List ℚ → Nat → ℚ → Nat → Nat
  | [], best, _, _ => best
  | x :: xs, best, bestVal, i =>
    if bestVal < x then argmaxAux xs i x (i + 1)
    else argmaxAux xs best bestVal (i + 1)

/-- First-occurrence `np.argmax` over a rational vector (0 on the empty
vector, which NumPy rejects; the pipeline never calls it on one). -/
def npArgmax : List ℚ → Nat
  | [] => 0
  | x :: xs => argmaxAux xs 0 x 1

/-- Python 3 `round` on a value already scaled to percentages, to 2 decimal
places: round-half-to-even of `q * 100`, divided back by 100. -/
def pyRound2 (q : ℚ) : ℚ :=
  let s := q * 100
  let f := Rat.floor s
  let r : ℤ :=
    if s - f < 1 / 2 then f
    else if (1 : ℚ) / 2 < s - f then f + 1
    else if f % 2 = 0 then f else f + 1
  (r : ℚ) / 100

/-- The structured result the REST formatter builds: predicted label,
rounded confidence percentage, and the rounded per-label distribution. -/
structure PredictionResult where
  predicted_class : String
  confidence : ℚ
  probabilities : List (String × ℚ)
  deriving DecidableEq

/-- The Python dict comprehension
`\x7bCLASS_NAMES[i]: scale(predictions[0][i]) for i in indices\x7d`, evaluated
left to right: label paired with the scaled vector entry at each index, a
Python `IndexError` at the first index past the end of the vector. -/
def buildEntries (scale : ℚ → ℚ) (v : List ℚ) :
    List Nat → Except String (List (String × ℚ))
  | [] => .ok []
  | i :: rest =>
    match v.get? i with
    | some p =>
      (buildEntries scale v rest).map
        (fun tail => (CLASS_NAMES.getD i "", scale p) :: tail)
    | none => .error "IndexError: index out of range"

/-- The REST result formatter of `src/app.py` lines 188-206: first-occurrence
argmax over the raw vector, label lookup in `CLASS_NAMES` (a Python
`IndexError` when the index is out of range), confidence rounded to 2
decimals, and the distribution built by indexing the vector at positions
`0..len(CLASS_NAMES)-1` (an `IndexError` when the vector is shorter), each
entry independently rounded to 2 decimals. -/
def formatResultE (v : List ℚ) : Except String PredictionResult := do
  let idx := npArgmax v
  let cls ← match CLASS_NAMES.get? idx with
    | some c => pure c
    | none => throw "IndexError: list index out of range"
  let conf := pyRound2 (v.getD idx 0 * 100)
  let probs ← buildEntries (fun p => pyRound2 (p * 100)) v (List.range CLASS_NAMES.length)
  pure { predicted_class := cls, confidence := conf, probabilities := probs }

/-- The loaded inference model: its declared per-sample input shape and its
forward pass (the probability vector for the single batch element). The
network itself is an opaque pretrained artifact, so the forward pass is a
parameter of the embedding. -/
structure KerasModel where
  inputShape : List Nat
  run : NPArray → List ℚ

/-- Keras `model.predict` on a batch of one: checks the tensor shape against
the model's declared input shape (a shape mismatch raises), then runs the
forward pass. -/
def KerasModel.predict0 (m : KerasModel) (arr : NPArray) : Except String (List ℚ) :=
  if arr.shape = 1 :: m.inputShape then .ok (m.run arr)
  else .error "Input shape mismatch"

/-- The dashboard prediction function `predict_image` of
`src/app_streamlit.py` lines 183-214: preprocess (no RGBA conversion),
predict, argmax, label lookup, unrounded percentages; any exception is
caught and returned as an error string. -/
def predict_image (m : KerasModel) (img : PILImage)
    (interp : Nat → Nat → Nat → Fin 256) :
    Except String (String × ℚ × List (String × ℚ)) := do
  let arr := dashboardPreprocessArr img interp
  let preds ← m.predict0 arr
  let idx := npArgmax preds
  let cls ← match CLASS_NAMES.get? idx with
    | some c => pure c
    | none => throw "IndexError: list index out of range"
  let conf := preds.getD idx 0 * 100
  let probs ← buildEntries (fun p => p * 100) preds (List.range CLASS_NAMES.length)
  pure (cls, conf, probs)

/-- Observable side effects of the model-load operation: the
`os.path.exists` check, a `keras.models.load_model` call (with
`unrestricted = true` when invoked with `safe_mode=False`, `false` for the
default invocation), and the recompilation step. -/
inductive LoadEvent where
  | checkExists
  | deserialize (unrestricted : Bool)
  | compileModel
  deriving DecidableEq

/-- The environment the load operation reads: whether the artifact file
exists at `MODEL_PATH`, and the outcome of each deserialization flavor
(`loadUnsafe` is `load_model(..., safe_mode=False)`, `loadDefault` is
`load_model(...)` with its default restricted mode). -/
structure FileSystem where
  modelExists : Bool
  loadUnsafe : Except String KerasModel
  loadDefault : Except String KerasModel

/-- The Flask `load_model_once` of `src/app.py` lines 62-114, as a function
of the memoized global `model`: return the cached instance untouched when
present; otherwise check the file, try `load_model(..., safe_mode=False)`
first, fall back to the default `load_model(...)` on any exception
whatsoever (bare `except`), recompile, and return the instance — any
remaining exception is caught and `None` is returned. The result pairs the
new value of the global with the list of observable effects. -/
def load_model_once (fs : FileSystem) (model : Option KerasModel) :
    Option KerasModel × List LoadEvent :=
  match model with
  | some m => (some m, [])
  | none =>
    if fs.modelExists then
      match fs.loadUnsafe with
      | .ok m => (some m, [.checkExists, .deserialize true, .compileModel])
      | .error _ =>
        match fs.loadDefault with
        | .ok m => (some m, [.checkExists, .deserialize true, .deserialize false, .compileModel])
        | .error _ => (none, [.checkExists, .deserialize true, .deserialize false])
    else (none, [.checkExists])

/-- The state and accumulated effects after calling `load_model_once`
`n` times in a row from the initial unloaded state. -/
def callLoadN (fs : FileSystem) : Nat → Option KerasModel × List LoadEvent
  | 0 => (none, [])
  | n + 1 =>
    let prev := callLoadN fs n
    let step := load_model_once fs prev.1
    (step.1, prev.2 ++ step.2)

/-- The Streamlit `load_model` of `src/app_streamlit.py` lines 128-180 (the
body cached by `st.cache_resource`): check the file, a single default-mode
`load_model(...)` call with no fallback, recompile; exceptions are caught
and returned as an error message. -/
def st_load_model (fs : FileSystem) :
    Option KerasModel × Option String × List LoadEvent :=
  if fs.modelExists then
    match fs.loadDefault with
    | .ok m => (some m, none, [.checkExists, .deserialize false, .compileModel])
    | .error e => (none, some e, [.checkExists, .deserialize false])
  else (none, some "Model file not found: best_lung_model.h5", [.checkExists])

/-- The deserialization attempts a load run performed, in order; `true`
marks an unrestricted (`safe_mode=False`) attempt, `false` a default
restricted-mode attempt. -/
def deserializeAttempts (evs : List LoadEvent) : List Bool :=
  evs.filterMap fun e =>
    match e with
    | .deserialize u => some u
    | _ => none

/-- An uploaded multipart file: its client-declared filename and the decoded
image (`none` when `Image.open` rejects the bytes). -/
structure UploadedFile where
  filename : String
  decoded : Option PILImage

/-- A POST request to `/api/predict`: the optional multipart `file` field. -/
structure Request where
  file : Option UploadedFile

/-- The per-request side effects the error-handling claims observe: an
image-decode attempt and an inference attempt. -/
inductive HandlerEvent where
  | decodeImage
  | runInference
  deriving DecidableEq

/-- The metadata block echoed in a successful REST response. -/
structure ImageInfo where
  original_width : Nat
  original_height : Nat
  format : String
  deriving DecidableEq

/-- A JSON response of the `/api/predict` endpoint: HTTP status, the
`success` flag, the `error` string when present, and the prediction payload
fields when present. -/
structure PredictResponse where
  status : Nat
  success : Bool
  error : Option String
  predicted_class : Option String
  confidence : Option ℚ
  probabilities : Option (List (String × ℚ))
  image_info : Option ImageInfo

/-- An error response body `{success: false, error: msg}` with a status. -/
def errResponse (status : Nat) (msg : String) : PredictResponse :=
  { status := status
    success := false
    error := some msg
    predicted_class := none
    confidence := none
    probabilities := none
    image_info := none }

/-- The `/api/predict` handler of `src/app.py` lines 133-226, as a function
of the global `model`: the model-loaded guard (500), the file-field guard
(400), the empty-filename guard (400), then decode, RGBA conversion,
metadata capture, preprocessing, inference and formatting, with every
exception past the guards converted to a 500 whose `error` is the exception
message. The result pairs the response with the observable effects. -/
def predictHandler (model : Option KerasModel) (req : Request)
    (interp : Nat → Nat → Nat → Fin 256) :
    PredictResponse × List HandlerEvent :=
  match model with
  | none => (errResponse 500 "Model not loaded", [])
  | some m =>
    match req.file with
    | none => (errResponse 400 "No file uploaded", [])
    | some f =>
      if f.filename = "" then (errResponse 400 "No file selected", [])
      else
        match f.decoded with
        | none => (errResponse 500 "cannot identify image file", [.decodeImage])
        | some img0 =>
          let pre := restPreprocess img0 interp
          match m.predict0 pre.1 with
          | .error e => (errResponse 500 e, [.decodeImage, .runInference])
          | .ok preds =>
            match formatResultE preds with
            | .error e => (errResponse 500 e, [.decodeImage, .runInference])
            | .ok r =>
              ({ status := 200
                 success := true
                 error := none
                 predicted_class := some r.predicted_class
                 confidence := some r.confidence
                 probabilities := some r.probabilities
                 image_info := some
                   { original_width := pre.2.1
                     original_height := pre.2.2.1
                     format := pre.2.2.2 } },
               [.decodeImage, .runInference])

/-- The dashboard per-session state the analysis action touches
(`st.session_state`): the `prediction_made` flag gating the results pane,
the stored result fields of the last successful analysis, and the session
analysis counter. -/
structure SessionState where
  prediction_made : Bool
  predicted_class : Option String
  confidence : Option ℚ
  probabilities : Option (List (String × ℚ))
  analysis_count : Nat
  deriving DecidableEq

/-- The dashboard analyze-button action of `src/app_streamlit.py` lines
356-376: run `predict_image`; on error, show an inline error message and set
`prediction_made` to `False`; on success, store the result fields, set
`prediction_made` to `True` and bump the counter. Returns the new session
state and the inline error message, when one is shown. -/
def analyzeAction (m : KerasModel) (img : PILImage)
    (interp : Nat → Nat → Nat → Fin 256) (s : SessionState) :
    SessionState × Option String :=
  match predict_image m img interp with
  | .error e =>
    ({ s with prediction_made := false }, some ("Error during analysis: " ++ e))
  | .ok (cls, conf, probs) =>
    ({ prediction_made := true
       predicted_class := some cls
       confidence := some conf
       probabilities := some probs
       analysis_count := s.analysis_count + 1 }, none)

/-- Whether the results pane renders the stored prediction
(`src/app_streamlit.py` line 394 gates on `st.session_state.prediction_made`). -/
def resultsVisible (s : SessionState) : Bool :=
  s.prediction_made

/-! Concrete fixtures used to instantiate the theorems below. -/

/-- A constant interpolation function standing in for PIL resampling. -/
def constInterp : Nat → Nat → Nat → Fin 256 := fun _ _ _ => 128

/-- A 64 by 64 RGB JPEG test image. -/
def rgbImg : PILImage :=
  { mode := .RGB, width := 64, height := 64, pixel := fun _ _ _ => 200
    format := some "JPEG" }

/-- A 37 by 23 RGBA PNG test image. -/
def rgbaImg : PILImage :=
  { mode := .RGBA, width := 37, height := 23, pixel := fun _ _ _ => 5
    format := some "PNG" }

/-- A 1 by 1 grayscale PNG test image. -/
def grayImg : PILImage :=
  { mode := .L, width := 1, height := 1, pixel := fun _ _ _ => 77
    format := some "PNG" }

/-- A loaded model matching the artifact's declared 150 by 150 by 3 input,
whose forward pass returns the probability vector of the spec's example. -/
def okModel : KerasModel :=
  { inputShape := [150, 150, 3], run := fun _ => [7/10, 2/10, 1/10] }

/-- An environment where the artifact exists and both deserialization
flavors succeed. -/
def fsGood : FileSystem :=
  { modelExists := true, loadUnsafe := .ok okModel, loadDefault := .ok okModel }

/-- An environment where the artifact exists, the `safe_mode=False` call
fails with a resource-exhaustion error (not a compatibility error), and the
default call succeeds. -/
def fsOOM : FileSystem :=
  { modelExists := true
    loadUnsafe := .error "ResourceExhaustedError: out of memory"
    loadDefault := .ok okModel }

/-- A request whose multipart `file` field is absent. -/
def noFileReq : Request := { file := none }

/-- A request whose file has an empty filename. -/
def emptyNameFile : UploadedFile := { filename := "", decoded := some rgbImg }

/-- The request carrying `emptyNameFile`. -/
def emptyNameReq : Request := { file := some emptyNameFile }

/-- An upload of the RGBA test image. -/
def rgbaFile : UploadedFile := { filename := "scan.png", decoded := some rgbaImg }

/-- The request carrying `rgbaFile`. -/
def rgbaReq : Request := { file := some rgbaFile }

/-- A session state holding the displayed results of a prior successful
analysis (`prediction_made` is set). -/
def priorState : SessionState :=
  { prediction_made := true
    predicted_class := some "Normal"
    confidence := some 95
    probabilities := some
      [("Adenocarcinoma", 3), ("Normal", 95), ("Squamous Cell Carcinoma", 2)]
    analysis_count := 1 }

/-! Helper lemmas about the formatter. -/

/-- The first-occurrence argmax of a 3-element vector, in closed form. -/
lemma npArgmax_three (a b c : ℚ) :
    npArgmax [a, b, c] =
      if a < b then (if b < c then 2 else 1) else (if a < c then 2 else 0) := by
  simp only [npArgmax, argmaxAux]

/-- The argmax of a 3-element vector is a valid index. -/
lemma npArgmax_three_lt (a b c : ℚ) : npArgmax [a, b, c] < 3 := by
  rw [npArgmax_three]
  split_ifs <;> norm_num

/-- The argmax entry of a 3-element vector is maximal. -/
lemma npArgmax_three_max (a b c : ℚ) :
    ∀ j, j < 3 → [a, b, c].getD j 0 ≤ [a, b, c].getD (npArgmax [a, b, c]) 0 := by
  rw [npArgmax_three]
  intro j hj
  interval_cases j <;> split_ifs <;> simp [List.getD] <;> linarith

/-- Every index below the argmax of a 3-element vector holds a strictly
smaller entry: the argmax is the lowest index attaining the maximum. -/
lemma npArgmax_three_first (a b c : ℚ) :
    ∀ j, j < npArgmax [a, b, c] →
      [a, b, c].getD j 0 < [a, b, c].getD (npArgmax [a, b, c]) 0 := by
  rw [npArgmax_three]
  intro j hj
  split_ifs at hj ⊢ with h1 h2 h3
  · interval_cases j <;> simp [List.getD] <;> linarith
  · interval_cases j <;> simp [List.getD] <;> linarith
  · interval_cases j <;> simp [List.getD] <;> linarith
  · omega

/-- The formatter on any 3-element vector, in closed form: it succeeds with
the argmax label, the rounded confidence at the argmax, and the three
independently rounded distribution entries. -/
lemma formatResultE_three (a b c : ℚ) :
    formatResultE [a, b, c] =
      .ok { predicted_class := CLASS_NAMES.getD (npArgmax [a, b, c]) ""
            confidence := pyRound2 ([a, b, c].getD (npArgmax [a, b, c]) 0 * 100)
            probabilities :=
              [("Adenocarcinoma", pyRound2 (a * 100)),
               ("Normal", pyRound2 (b * 100)),
               ("Squamous Cell Carcinoma", pyRound2 (c * 100))] } := by
  have hr : List.range CLASS_NAMES.length = [0, 1, 2] := rfl
  rw [formatResultE, npArgmax_three]
  split_ifs <;>
    simp [hr, CLASS_NAMES, buildEntries, Except.map, List.getD]

/-- The REST tensor of an RGB or RGBA image has shape `[1, 150, 150, 3]`. -/
lemma restPreprocessArr_shape (img : PILImage) (interp : Nat → Nat → Nat → Fin 256)
    (h : img.mode = .RGB ∨ img.mode = .RGBA) :
    (restPreprocessArr img interp).shape = [1, 150, 150, 3] := by
  rcases h with h | h <;>
    simp [restPreprocessArr, restPreprocess, h, PILImage.convertRGB, npArrayOfImage,
      expandDims, scaleDiv255, Mode.hasChannelAxis, Mode.channels, PILImage.resize, IMG_SIZE]

/-- The original-image metadata the REST pipeline records: the pre-resize
width and height, and the declared format — which is `Unknown` for RGBA
inputs, because `Image.convert` clears the PIL format attribute. -/
lemma restPreprocess_meta (img : PILImage) (interp : Nat → Nat → Nat → Fin 256) :
    (restPreprocess img interp).2.1 = img.width ∧
    (restPreprocess img interp).2.2.1 = img.height ∧
    (restPreprocess img interp).2.2.2 =
      if img.mode = .RGBA then "Unknown" else img.format.getD "Unknown" := by
  by_cases h : img.mode = .RGBA <;>
    simp [restPreprocess, h, PILImage.convertRGB]

/-- The dashboard prediction on the RGBA fixture fails: the un-flattened
4-channel tensor mismatches the model's 3-channel input shape. -/
lemma predict_image_rgba_err :
    predict_image okModel rgbaImg constInterp = .error "Input shape mismatch" := by
  simp [predict_image, dashboardPreprocessArr, rgbaImg, npArrayOfImage, expandDims,
    scaleDiv255, Mode.hasChannelAxis, Mode.channels, PILImage.resize, IMG_SIZE,
    KerasModel.predict0, okModel, Bind.bind, Except.bind]

/-- Claim C1, counterexample. The claim promises shape `[1, 150, 150, 3]`
for every successfully decoded image regardless of color mode, but a
decoded grayscale image (PIL mode `L`) carries no channel axis: the REST
pipeline hands `predict` a tensor of shape `[1, 150, 150]`. -/
theorem C1_counterexample :
    (restPreprocessArr grayImg constInterp).shape = [1, 150, 150] ∧
    (restPreprocessArr grayImg constInterp).shape ≠ [1, 150, 150, 3] := by
  constructor <;>
    simp [restPreprocessArr, restPreprocess, grayImg, npArrayOfImage, expandDims,
      scaleDiv255, Mode.hasChannelAxis, PILImage.resize, IMG_SIZE]

/-- Claim C1, amended: for every decoded image of RGB or RGBA mode
(arbitrary original dimensions), the tensor the REST pipeline hands to
`predict` has shape `[1, 150, 150, 3]`; the dashboard pipeline gives the
same shape for RGB mode; and every element of the batch slice equals the
resized image's 0-255 channel value divided by 255, hence lies in
`[0, 1]`. -/
theorem C1_shape_invariant (img : PILImage) (interp : Nat → Nat → Nat → Fin 256)
    (h : img.mode = .RGB ∨ img.mode = .RGBA) :
    (restPreprocessArr img interp).shape = [1, 150, 150, 3] ∧
    (img.mode = .RGB → (dashboardPreprocessArr img interp).shape = [1, 150, 150, 3]) ∧
    ∀ i j c,
      (restPreprocessArr img interp).data [0, i, j, c] = ((interp i j c : Nat) : ℚ) / 255 ∧
      0 ≤ (restPreprocessArr img interp).data [0, i, j, c] ∧
      (restPreprocessArr img interp).data [0, i, j, c] ≤ 1 := by
  have hval : ∀ i j c : Nat,
      (0 : ℚ) ≤ ((interp i j c : Nat) : ℚ) / 255 ∧ ((interp i j c : Nat) : ℚ) / 255 ≤ 1 := by
    intro i j c
    have hlt : ((interp i j c : Nat) : ℚ) ≤ 255 := by
      have h256 := (interp i j c).isLt
      exact_mod_cast Nat.lt_succ_iff.mp h256
    refine ⟨by positivity, ?_⟩
    rw [div_le_one (by norm_num)]
    exact hlt
  rcases h with h | h
  · refine ⟨?_, ?_, ?_⟩
    · simp [restPreprocessArr, restPreprocess, h, npArrayOfImage, expandDims,
        scaleDiv255, Mode.hasChannelAxis, Mode.channels, PILImage.resize, IMG_SIZE]
    · intro _
      simp [dashboardPreprocessArr, h, npArrayOfImage, expandDims, scaleDiv255,
        Mode.hasChannelAxis, Mode.channels, PILImage.resize, IMG_SIZE]
    · intro i j c
      have hdata : (restPreprocessArr img interp).data [0, i, j, c] =
          ((interp i j c : Nat) : ℚ) / 255 := by
        simp [restPreprocessArr, restPreprocess, h, npArrayOfImage, expandDims,
          scaleDiv255, Mode.hasChannelAxis, PILImage.resize, IMG_SIZE]
      rw [hdata]
      exact ⟨rfl, (hval i j c).1, (hval i j c).2⟩
  · refine ⟨?_, ?_, ?_⟩
    · simp [restPreprocessArr, restPreprocess, h, PILImage.convertRGB, npArrayOfImage,
        expandDims, scaleDiv255, Mode.hasChannelAxis, Mode.channels, PILImage.resize, IMG_SIZE]
    · intro h2
      rw [h] at h2
      exact absurd h2 (by simp)
    · intro i j c
      have hdata : (restPreprocessArr img interp).data [0, i, j, c] =
          ((interp i j c : Nat) : ℚ) / 255 := by
        simp [restPreprocessArr, restPreprocess, h, PILImage.convertRGB, npArrayOfImage,
          expandDims, scaleDiv255, Mode.hasChannelAxis, PILImage.resize, IMG_SIZE]
      rw [hdata]
      exact ⟨rfl, (hval i j c).1, (hval i j c).2⟩

/-- Witness for C1 at a concrete RGB image and interpolation. -/
theorem C1_witness :
    (rgbImg.mode = .RGB ∨ rgbImg.mode = .RGBA) ∧
    (restPreprocessArr rgbImg constInterp).shape = [1, 150, 150, 3] :=
  ⟨Or.inl rfl, (C1_shape_invariant rgbImg constInterp (Or.inl rfl)).1⟩

/-- Claim C2: on every 3-element probability vector the formatter selects
the lowest index attaining the maximum, maps it through the fixed label
order, reports the confidence and distribution as the values times 100
rounded to 2 decimals; `[0.7, 0.2, 0.1]` yields `Adenocarcinoma` at 70.0
with distribution 70.0 / 20.0 / 10.0, and `[0.5, 0.5, 0.0]` selects
index 0. -/
theorem C2_formatter (v : List ℚ) (h : v.length = 3) :
    (∃ r, formatResultE v = .ok r ∧
      r.predicted_class = CLASS_NAMES.getD (npArgmax v) "" ∧
      (∀ j, j < 3 → v.getD j 0 ≤ v.getD (npArgmax v) 0) ∧
      (∀ j, j < npArgmax v → v.getD j 0 < v.getD (npArgmax v) 0) ∧
      r.confidence = pyRound2 (v.getD (npArgmax v) 0 * 100) ∧
      r.probabilities =
        [("Adenocarcinoma", pyRound2 (v.getD 0 0 * 100)),
         ("Normal", pyRound2 (v.getD 1 0 * 100)),
         ("Squamous Cell Carcinoma", pyRound2 (v.getD 2 0 * 100))]) ∧
    formatResultE [7/10, 2/10, 1/10] =
      .ok { predicted_class := "Adenocarcinoma", confidence := 70
            probabilities := [("Adenocarcinoma", 70), ("Normal", 20),
                              ("Squamous Cell Carcinoma", 10)] } ∧
    npArgmax [1/2, 1/2, 0] = 0 ∧
    (formatResultE [1/2, 1/2, 0]).toOption.map PredictionResult.predicted_class =
      some "Adenocarcinoma" := by
  have hr : List.range CLASS_NAMES.length = [0, 1, 2] := rfl
  refine ⟨?_, ?_, ?_, ?_⟩
  · obtain ⟨a, b, c, rfl⟩ := List.length_eq_three.mp h
    exact ⟨_, formatResultE_three a b c, rfl, npArgmax_three_max a b c,
      npArgmax_three_first a b c, rfl, rfl⟩
  · norm_num [formatResultE, npArgmax, argmaxAux, pyRound2, Rat.floor, CLASS_NAMES,
      hr, buildEntries, Except.map]
  · norm_num [npArgmax, argmaxAux]
  · norm_num [formatResultE, npArgmax, argmaxAux, pyRound2, Rat.floor, CLASS_NAMES,
      hr, buildEntries, Except.map, Except.toOption]

/-- Witness for C2 at the vector `[0.7, 0.2, 0.1]`. -/
theorem C2_witness : npArgmax [1/2, 1/2, 0] = 0 :=
  (C2_formatter [7/10, 2/10, 1/10] rfl).2.2.1

/-- Claim C3: the load operation is idempotent. Once a call has produced a
loaded model, every later call returns that same instance with no file
check, no re-read and no re-deserialization (its effect list is empty), so
N calls perform the deserialization work of the first call only. -/
theorem C3_idempotent_load (fs : FileSystem) (m : KerasModel)
    (h : (load_model_once fs none).1 = some m) :
    load_model_once fs (some m) = (some m, []) ∧
    ∀ n, callLoadN fs (n + 1) = ((load_model_once fs none).1, (load_model_once fs none).2) := by
  refine ⟨rfl, ?_⟩
  intro n
  induction n with
  | zero => simp [callLoadN]
  | succ k ih =>
    have hstate : (callLoadN fs (k + 1)).1 = some m := by
      rw [ih, h]
    show ((load_model_once fs (callLoadN fs (k + 1)).1).1,
          (callLoadN fs (k + 1)).2 ++ (load_model_once fs (callLoadN fs (k + 1)).1).2) =
        ((load_model_once fs none).1, (load_model_once fs none).2)
    rw [hstate]
    show (some m, (callLoadN fs (k + 1)).2 ++ ([] : List LoadEvent)) =
        ((load_model_once fs none).1, (load_model_once fs none).2)
    rw [List.append_nil, ih, h]

/-- Witness for C3: in an environment where the first load succeeds, a
repeat call returns the cached instance with no effects. -/
theorem C3_witness : load_model_once fsGood (some okModel) = (some okModel, []) :=
  (C3_idempotent_load fsGood okModel rfl).1

/-- Claim C4: while the model is not loaded, every `/api/predict` request
is answered with HTTP 500, `success: false` and the error `Model not
loaded`, and neither an image-decode nor an inference attempt happens. -/
theorem C4_unloaded_guard (req : Request) (interp : Nat → Nat → Nat → Fin 256) :
    (predictHandler none req interp).1.status = 500 ∧
    (predictHandler none req interp).1.success = false ∧
    (predictHandler none req interp).1.error = some "Model not loaded" ∧
    (predictHandler none req interp).2 = [] :=
  ⟨rfl, rfl, rfl, rfl⟩

/-- Claim C5, counterexample. The claim promises that a request with a
missing `file` field is never answered with a 500, but the handler checks
the model first: when the model is not loaded, the very same request gets
a 500 `Model not loaded`, not a 400. -/
theorem C5_counterexample :
    (predictHandler none noFileReq constInterp).1.status = 500 ∧
    ¬ (predictHandler none noFileReq constInterp).1.status = 400 := by
  exact ⟨rfl, by simp [predictHandler, errResponse]⟩

/-- Claim C5, amended: while the model is loaded, a request with a missing
`file` field gets HTTP 400 `No file uploaded`, and one whose filename is
empty gets HTTP 400 `No file selected`; in both cases `success` is false
and no decode or inference is attempted (while the model is unloaded, the
model guard answers 500 first). -/
theorem C5_caller_errors (m : KerasModel) (req : Request)
    (interp : Nat → Nat → Nat → Fin 256) :
    (req.file = none →
      (predictHandler (some m) req interp).1 = errResponse 400 "No file uploaded" ∧
      (predictHandler (some m) req interp).2 = []) ∧
    (∀ f, req.file = some f → f.filename = "" →
      (predictHandler (some m) req interp).1 = errResponse 400 "No file selected" ∧
      (predictHandler (some m) req interp).2 = []) := by
  constructor
  · intro hnone
    simp [predictHandler, hnone]
  · intro f hsome hname
    simp [predictHandler, hsome, hname]

/-- Witness for C5 at a concrete loaded model, a concrete file-less request
and a concrete empty-filename request. -/
theorem C5_witness :
    ((predictHandler (some okModel) noFileReq constInterp).1 =
      errResponse 400 "No file uploaded") ∧
    ((predictHandler (some okModel) emptyNameReq constInterp).1 =
      errResponse 400 "No file selected") :=
  ⟨((C5_caller_errors okModel noFileReq constInterp).1 rfl).1,
   ((C5_caller_errors okModel emptyNameReq constInterp).2 emptyNameFile rfl rfl).1⟩

/-- Claim C6, evaluated at the failing input. The REST pipeline flattens
the RGBA fixture to a 3-channel tensor as claimed, but the dashboard
pipeline performs no flattening: it hands the model a 4-channel
`[1, 150, 150, 4]` tensor, and the prediction fails with a channel
(shape) mismatch instead of succeeding on a 3-channel tensor. -/
theorem C6_dashboard_rgba_bug :
    (restPreprocessArr rgbaImg constInterp).shape = [1, 150, 150, 3] ∧
    (dashboardPreprocessArr rgbaImg constInterp).shape = [1, 150, 150, 4] ∧
    predict_image okModel rgbaImg constInterp = .error "Input shape mismatch" := by
  refine ⟨restPreprocessArr_shape rgbaImg constInterp (Or.inr rfl), ?_,
    predict_image_rgba_err⟩
  simp [dashboardPreprocessArr, rgbaImg, npArrayOfImage, expandDims, scaleDiv255,
    Mode.hasChannelAxis, Mode.channels, PILImage.resize, IMG_SIZE]

/-- Claim C7, counterexample. The claim says the load operation first
attempts the restricted deserialization and falls back to the unrestricted
one only on a compatibility-specific failure. The code does the reverse:
the first attempt is the unrestricted `safe_mode=False` call, and the
fallback to the default restricted call happens on any error at all — here
a resource-exhaustion error, not a compatibility error. -/
theorem C7_counterexample :
    deserializeAttempts (load_model_once fsOOM none).2 = [true, false] ∧
    ¬ (deserializeAttempts (load_model_once fsOOM none).2).head? = some false := by
  constructor <;> simp [load_model_once, fsOOM, deserializeAttempts]

/-- Claim C7, amended: whenever the artifact file exists and the global is
unloaded, the REST load performs the unrestricted (`safe_mode=False`)
deserialization attempt first; a restricted default-mode attempt follows
exactly when the first attempt fails, whatever the failure is; the
dashboard load performs a single restricted default-mode attempt with no
fallback. -/
theorem C7_load_order (fs : FileSystem) (h : fs.modelExists = true) :
    (∀ m, fs.loadUnsafe = .ok m →
      deserializeAttempts (load_model_once fs none).2 = [true]) ∧
    (∀ e, fs.loadUnsafe = .error e →
      deserializeAttempts (load_model_once fs none).2 = [true, false]) ∧
    deserializeAttempts (st_load_model fs).2.2 = [false] := by
  refine ⟨?_, ?_, ?_⟩
  · intro m hm
    simp [load_model_once, h, hm, deserializeAttempts]
  · intro e he
    simp only [load_model_once, h, he, if_true]
    cases fs.loadDefault <;> simp [deserializeAttempts]
  · simp only [st_load_model, h, if_true]
    cases fs.loadDefault <;> simp [deserializeAttempts]

/-- Witness for C7 in a concrete environment where the unrestricted
attempt fails with a resource error and the restricted fallback runs. -/
theorem C7_witness :
    deserializeAttempts (load_model_once fsOOM none).2 = [true, false] :=
  (C7_load_order fsOOM rfl).2.1 "ResourceExhaustedError: out of memory" rfl

/-- Claim C8, counterexample. The claim says a successful response echoes
the uploaded image's declared original encoding format. For an RGBA upload
declared as PNG, the RGB conversion clears the PIL format attribute, so
the successful response reports format `Unknown`, not `PNG` — width and
height are still echoed correctly. -/
theorem C8_counterexample :
    rgbaImg.format = some "PNG" ∧
    (predictHandler (some okModel) rgbaReq constInterp).1.status = 200 ∧
    (predictHandler (some okModel) rgbaReq constInterp).1.image_info =
      some { original_width := 37, original_height := 23, format := "Unknown" } := by
  have hfmt := formatResultE_three (7/10 : ℚ) (2/10) (1/10)
  simp only [one_div] at hfmt
  refine ⟨rfl, ?_, ?_⟩ <;>
    simp [predictHandler, rgbaReq, rgbaFile, hfmt, restPreprocess, rgbaImg,
      PILImage.convertRGB, KerasModel.predict0, okModel, npArrayOfImage, expandDims,
      scaleDiv255, Mode.hasChannelAxis, Mode.channels, PILImage.resize, IMG_SIZE]

/-- Claim C8, amended: every successful prediction response echoes the
uploaded image's true pre-resize width and height (never 150 by 150 unless
the original was); the reported format is the declared original encoding
format for non-RGBA images, and `Unknown` for RGBA images, whose declared
format is discarded by the RGB conversion. -/
theorem C8_metadata (m : KerasModel) (f : UploadedFile) (img : PILImage)
    (interp : Nat → Nat → Nat → Fin 256)
    (hshape : m.inputShape = [150, 150, 3])
    (hname : ¬ f.filename = "")
    (hdec : f.decoded = some img)
    (hmode : img.mode = .RGB ∨ img.mode = .RGBA)
    (hlen : (m.run (restPreprocessArr img interp)).length = 3) :
    (predictHandler (some m) { file := some f } interp).1.status = 200 ∧
    (predictHandler (some m) { file := some f } interp).1.image_info =
      some { original_width := img.width
             original_height := img.height
             format := if img.mode = .RGBA then "Unknown"
                       else img.format.getD "Unknown" } := by
  have hok : m.predict0 (restPreprocess img interp).1 =
      .ok (m.run (restPreprocess img interp).1) := by
    unfold KerasModel.predict0
    rw [if_pos]
    rw [hshape]
    exact restPreprocessArr_shape img interp hmode
  obtain ⟨a, b, c, habc⟩ := List.length_eq_three.mp hlen
  have habc2 : m.run (restPreprocess img interp).1 = [a, b, c] := habc
  have hfmt := formatResultE_three a b c
  have hmeta := restPreprocess_meta img interp
  constructor <;>
    simp [predictHandler, hdec, hname, hok, habc2, hfmt, hmeta.1, hmeta.2.1, hmeta.2.2]

/-- Witness for C8 at the concrete RGBA upload and model fixtures. -/
theorem C8_witness :
    (predictHandler (some okModel) { file := some rgbaFile } constInterp).1.status = 200 ∧
    (predictHandler (some okModel) { file := some rgbaFile } constInterp).1.image_info =
      some { original_width := rgbaImg.width
             original_height := rgbaImg.height
             format := if rgbaImg.mode = .RGBA then "Unknown"
                       else rgbaImg.format.getD "Unknown" } :=
  C8_metadata okModel rgbaFile rgbaImg constInterp rfl (by decide) rfl (Or.inr rfl) rfl

/-- Claim C10, counterexample. The claim says a failed analysis leaves the
previously displayed results visible. Starting from a session that
displays a prior successful result, a failed analysis shows the inline
error but resets `prediction_made`, so the results pane no longer renders
the prior results. -/
theorem C10_counterexample :
    resultsVisible priorState = true ∧
    (analyzeAction okModel rgbaImg constInterp priorState).2 =
      some "Error during analysis: Input shape mismatch" ∧
    resultsVisible (analyzeAction okModel rgbaImg constInterp priorState).1 = false := by
  refine ⟨rfl, ?_, ?_⟩ <;>
    simp [analyzeAction, predict_image_rgba_err, resultsVisible, priorState]

/-- Claim C10, amended: when an analysis fails, the dashboard shows an
inline error message and leaves the stored result values of the last
successful analysis unchanged in session state, but it resets
`prediction_made` to false, so those prior results are no longer rendered
by the results pane. -/
theorem C10_failure_state (m : KerasModel) (img : PILImage)
    (interp : Nat → Nat → Nat → Fin 256) (s : SessionState) (e : String)
    (h : predict_image m img interp = .error e) :
    analyzeAction m img interp s =
      ({ s with prediction_made := false }, some ("Error during analysis: " ++ e)) ∧
    resultsVisible (analyzeAction m img interp s).1 = false ∧
    (analyzeAction m img interp s).1.predicted_class = s.predicted_class ∧
    (analyzeAction m img interp s).1.confidence = s.confidence ∧
    (analyzeAction m img interp s).1.probabilities = s.probabilities ∧
    (analyzeAction m img interp s).1.analysis_count = s.analysis_count := by
  refine ⟨?_, ?_, ?_, ?_, ?_, ?_⟩ <;> simp [analyzeAction, h, resultsVisible]

/-- Witness for C10 at the concrete failing analysis over the prior
session state. -/
theorem C10_witness :
    analyzeAction okModel rgbaImg constInterp priorState =
      ({ priorState with prediction_made := false },
       some ("Error during analysis: " ++ "Input shape mismatch")) :=
  (C10_failure_state okModel rgbaImg constInterp priorState "Input shape mismatch"
    predict_image_rgba_err).1

end LungCancer
